import Mathlib

/-!
Shallow embedding of the iterative-telemetry client
(src/iterative_telemetry/__init__.py): the identity store
(find_or_create_user_id and its helpers), the gate check (is_enabled),
payload assembly (_runtime_info / _system_info) and delivery-strategy
selection (send / send_event / send_cli_call), plus the synchronous
delivery primitive (_send).

Python exceptions are modelled with Except; the filesystem state seen by
the identity store is a StoreState; platform-injected data (OS family,
version strings, the generated UUID) are explicit parameters.
-/

deriving instance DecidableEq for Except

namespace IterativeTelemetry

/-- The opt-out sentinel value, DO_NOT_TRACK_VALUE in the source. -/
def DO_NOT_TRACK_VALUE : String := "do-not-track"

/-- Model of the Python str.lower method (the identifiers involved are
ASCII, where Char.toLower agrees with it). -/
def pyLower (s : String) : String := ⟨s.data.map Char.toLower⟩

/-- Python exceptions that the modelled code can raise or swallow. -/
inductive PyExc where
  | timeout
  | osError
  | unboundLocal
  | valueError
  | notImplemented
  | requestFailed
deriving DecidableEq, Repr

/-- Observable content of an identity JSON file, as seen by _read_user_id:
absent (open raises FileNotFoundError), malformed (json.load raises
ValueError or the user_id key is missing, raising KeyError), oserror (open
or read raises an OSError other than FileNotFoundError, e.g.
PermissionError), or a file holding a user_id string. -/
inductive FileContent where
  | absent
  | malformed
  | oserror
  | userId (s : String)
deriving DecidableEq, Repr

/-- The filesystem/lock state relevant to find_or_create_user_id: the
primary config file, the legacy (DVC) config file, whether the legacy
parent directory exists, and whether each FileLock acquisition times out. -/
structure StoreState where
  primary : FileContent
  legacy : FileContent
  legacyDirExists : Bool
  primaryLockTimeout : Bool
  legacyLockTimeout : Bool
deriving DecidableEq, Repr

/-- Model of _read_user_id: FileNotFoundError, ValueError and KeyError are
caught and yield None; other OS errors propagate. -/
def read_user_id : FileContent → Except PyExc (Option String)
  | .absent => .ok none
  | .malformed => .ok none
  | .oserror => .error .osError
  | .userId s => .ok (some s)

/-- Model of _read_user_id_locked: if the parent directory of the config
file exists, take the companion lock (which may time out, raising
filelock.Timeout) and read; otherwise return None without locking. -/
def read_user_id_locked (file : FileContent) (dirExists lockTimeout : Bool) :
    Except PyExc (Option String) :=
  if dirExists then
    if lockTimeout then .error .timeout
    else read_user_id file
  else .ok none

/-- The final return line of find_or_create_user_id: the resolved value,
or None when it equals the sentinel case-insensitively. -/
def sentinelFilter (uid : String) : Option String :=
  if pyLower uid ≠ pyLower DO_NOT_TRACK_VALUE then some uid else none

/-- Model of find_or_create_user_id (lru_cache not applied: each call is a
cache-cleared run). freshId stands for the uuid4 string _generate_id
would produce on this run. Mirrors the source control flow: on primary
lock Timeout the except block only logs, and the final return line then
reads the never-assigned local user_id, raising UnboundLocalError; a
legacy lock Timeout is caught and returns None; a resolved-or-generated
value is persisted to the primary file; the sentinel comparison is
case-insensitive. -/
def find_or_create_user_id (st : StoreState) (freshId : String) :
    Except PyExc (Option String) × StoreState :=
  if st.primaryLockTimeout then
    (.error .unboundLocal, st)
  else
    match read_user_id st.primary with
    | .error e => (.error e, st)
    | .ok (some uid) => (.ok (sentinelFilter uid), st)
    | .ok none =>
      match read_user_id_locked st.legacy st.legacyDirExists st.legacyLockTimeout with
      | .error .timeout => (.ok none, st)
      | .error e => (.error e, st)
      | .ok legacyUid =>
        let uid := legacyUid.getD freshId
        (.ok (sentinelFilter uid), { st with primary := .userId uid })

/-- The enabled configuration: a plain boolean, or a callable predicate
modelled by the boolean it returns when invoked. -/
inductive EnabledCfg where
  | boolean (b : Bool)
  | callable (b : Bool)
deriving DecidableEq, Repr

/-- Constructor-time configuration of IterativeTelemetryLogger. -/
structure LoggerCfg where
  tool_name : String
  tool_version : String
  enabled : EnabledCfg
  url : String
  token : String
deriving DecidableEq, Repr

/-- Model of IterativeTelemetryLogger.is_enabled. The source is a single
conditional expression: when enabled is callable, the result is (env
override unset) and enabled(), with no identity resolution; when enabled
is a boolean, the result is enabled and (find_or_create_user_id() is not
None), with no env check. Besides the gate boolean it returns the
lru_cache state left behind (some uid when resolution ran) and the
updated store. -/
def is_enabled (cfg : LoggerCfg) (envSet : Bool) (st : StoreState) (freshId : String) :
    Except PyExc (Bool × Option (Option String) × StoreState) :=
  match cfg.enabled with
  | .callable b => .ok (!envSet && b, none, st)
  | .boolean b =>
    if b then
      match find_or_create_user_id st freshId with
      | (.error e, _) => .error e
      | (.ok uid, st1) => .ok (uid.isSome, some uid, st1)
    else .ok (false, none, st)

/-- Platform-injected data: OS family with the version fields the source
reads (sys.getwindowsversion, platform.mac_ver, distro.version). -/
inductive Platform where
  | windows (build major minor : Nat) (servicePack : String)
  | mac (release : String)
  | linux (distroVersion : String)
  | other (name : String)
deriving DecidableEq, Repr

/-- The record _system_info returns. -/
structure SysInfo where
  os_name : String
  os_version : String
deriving DecidableEq, Repr

/-- The Windows os_version format string of _system_info. -/
def winVersionString (build major minor : Nat) (servicePack : String) : String :=
  toString build ++ "." ++ toString major ++ "." ++ toString minor ++ "-" ++ servicePack

/-- Model of _system_info: three supported families, NotImplementedError
otherwise. -/
def system_info : Platform → Except PyExc SysInfo
  | .windows b ma mi sp => .ok ⟨"windows", winVersionString b ma mi sp⟩
  | .mac rel => .ok ⟨"mac", rel⟩
  | .linux v => .ok ⟨"linux", v⟩
  | .other _ => .error .notImplemented

/-- The mapping _runtime_info merges into the payload. -/
structure RuntimeInfo where
  tool_name : String
  tool_version : String
  os_name : String
  os_version : String
  user_id : Option String
  group_id : String
deriving DecidableEq, Repr

/-- The dict literal of _runtime_info: group_id is the literal empty
string (a TODO placeholder in the source). -/
def mkRuntimeInfo (cfg : LoggerCfg) (si : SysInfo) (uid : Option String) : RuntimeInfo :=
  { tool_name := cfg.tool_name
    tool_version := cfg.tool_version
    os_name := si.os_name
    os_version := si.os_version
    user_id := uid
    group_id := "" }

/-- Model of _runtime_info: _system_info first (may raise), then
find_or_create_user_id, served from the lru_cache when is_enabled already
ran it (cached = some uid). -/
def runtime_info (cfg : LoggerCfg) (plat : Platform) (st : StoreState) (freshId : String)
    (cached : Option (Option String)) :
    Except PyExc (RuntimeInfo × StoreState) :=
  match system_info plat with
  | .error e => .error e
  | .ok si =>
    match cached with
    | some uid => .ok (mkRuntimeInfo cfg si uid, st)
    | none =>
      match find_or_create_user_id st freshId with
      | (.error e, _) => .error e
      | (.ok uid, st1) => .ok (mkRuntimeInfo cfg si uid, st1)

/-- The payload dict send_event builds before send merges runtime info. -/
structure BasePayload where
  interface : String
  action : String
  error : Option String
  extra : List (String × String)
deriving DecidableEq, Repr

/-- The payload after payload.update(self._runtime_info()). -/
structure FullPayload where
  interface : String
  action : String
  error : Option String
  extra : List (String × String)
  tool_name : String
  tool_version : String
  os_name : String
  os_version : String
  user_id : Option String
  group_id : String
deriving DecidableEq, Repr

/-- Merge of the base payload with runtime info (keys are disjoint). -/
def updatePayload (base : BasePayload) (ri : RuntimeInfo) : FullPayload :=
  { interface := base.interface
    action := base.action
    error := base.error
    extra := base.extra
    tool_name := ri.tool_name
    tool_version := ri.tool_version
    os_name := ri.os_name
    os_version := ri.os_version
    user_id := ri.user_id
    group_id := ri.group_id }

/-- The three delivery strategies. -/
inductive Strategy where
  | sync
  | thread
  | daemon
deriving DecidableEq, Repr

/-- Strategy selection in send: impl starts as _send, use_daemon switches
it to _send_daemon, and use_thread (checked last) to _send_thread. -/
def selectStrategy (use_thread use_daemon : Bool) : Strategy :=
  if use_thread then .thread else if use_daemon then .daemon else .sync

/-- Model of IterativeTelemetryLogger.send: return early when is_enabled
is false; merge runtime info into the payload (which may raise
NotImplementedError or a resolution error); only then raise ValueError
when use_thread and use_daemon are both set; otherwise hand the payload
to exactly one strategy. The result is either the raised exception, or
(none, store) when suppressed, or (some (strategy, payload), store) when
dispatched. -/
def send (cfg : LoggerCfg) (envSet : Bool) (st : StoreState) (freshId : String)
    (plat : Platform) (base : BasePayload) (use_thread use_daemon : Bool) :
    Except PyExc (Option (Strategy × FullPayload) × StoreState) :=
  match is_enabled cfg envSet st freshId with
  | .error e => .error e
  | .ok (en, cached, st1) =>
    if en then
      match runtime_info cfg plat st1 freshId cached with
      | .error e => .error e
      | .ok (ri, st2) =>
        if use_thread && use_daemon then .error .valueError
        else .ok (some (selectStrategy use_thread use_daemon, updatePayload base ri), st2)
    else .ok (none, st1)

/-- Model of send_event: build the base payload dict and call send. -/
def send_event (cfg : LoggerCfg) (envSet : Bool) (st : StoreState) (freshId : String)
    (plat : Platform) (interface action : String) (error : Option String)
    (use_thread use_daemon : Bool) (kwargs : List (String × String)) :
    Except PyExc (Option (Strategy × FullPayload) × StoreState) :=
  send cfg envSet st freshId plat ⟨interface, action, error, kwargs⟩ use_thread use_daemon

/-- Model of send_cli_call: send_event with interface "cli" and the
default delivery flags. -/
def send_cli_call (cfg : LoggerCfg) (envSet : Bool) (st : StoreState) (freshId : String)
    (plat : Platform) (cmd_name : String) (error : Option String)
    (kwargs : List (String × String)) :
    Except PyExc (Option (Strategy × FullPayload) × StoreState) :=
  send_event cfg envSet st freshId plat "cli" cmd_name error false true kwargs

/-- One outbound HTTP POST as issued by requests.post in _send. -/
structure HttpRequest where
  url : String
  token : String
  body : FullPayload
  timeout : Nat
deriving DecidableEq, Repr

/-- Outcome of the transport for one POST attempt. -/
inductive TransportOutcome where
  | response (status : Nat)
  | connectionFailed
  | timedOut
deriving DecidableEq, Repr

/-- Model of requests.post(url, params, json, timeout): records the
request it issues; connection failures and timeouts raise, a response of
any status (2xx or not) does not since the body is never inspected. -/
def post (url token : String) (body : FullPayload) (timeout : Nat)
    (outcome : TransportOutcome) : HttpRequest × Except PyExc Unit :=
  (⟨url, token, body, timeout⟩,
    match outcome with
    | .response _ => .ok ()
    | .connectionFailed => .error .requestFailed
    | .timedOut => .error .requestFailed)

/-- Model of _send (the synchronous strategy): one POST with the auth
token as a query parameter, the payload as JSON body and timeout 2,
wrapped in a bare try/except that swallows every exception. Returns the
list of requests issued and the (never failing) outcome. -/
def send_sync (cfg : LoggerCfg) (body : FullPayload) (outcome : TransportOutcome) :
    List HttpRequest × Except PyExc Unit :=
  let pr := post cfg.url cfg.token body 2 outcome
  ([pr.1],
    match pr.2 with
    | .error _ => .ok ()
    | .ok u => .ok u)

/-- Whether a send result dispatched a payload to a strategy. -/
def dispatchedB : Except PyExc (Option (Strategy × FullPayload) × StoreState) → Bool
  | .ok (some _, _) => true
  | _ => false

/-- The value identity resolution yields, None when it raises. -/
def resolveValue (st : StoreState) (freshId : String) : Option String :=
  match (find_or_create_user_id st freshId).1 with
  | .ok v => v
  | .error _ => none

/-- Whether identity resolution completes without raising. -/
def resolveOk (st : StoreState) (freshId : String) : Bool :=
  match (find_or_create_user_id st freshId).1 with
  | .ok _ => true
  | .error _ => false

/-- Whether the enabled config (boolean, or predicate when callable)
signals true. -/
def enabledSignalsTrue : EnabledCfg → Bool
  | .boolean b => b
  | .callable b => b

/-- The gate as the specification claims it: env override unset AND the
enabled flag or predicate true AND identity resolution non-None. -/
def claimedGateB (cfg : LoggerCfg) (envSet : Bool) (st : StoreState) (freshId : String) : Bool :=
  !envSet && enabledSignalsTrue cfg.enabled && (resolveValue st freshId).isSome

/-- The gate as the source computes it: for a callable enabled, env unset
and the predicate result, with identity resolution not consulted; for a
boolean enabled, the flag and a non-None resolution, with the env
override not consulted. -/
def actualGateB (cfg : LoggerCfg) (envSet : Bool) (st : StoreState) (freshId : String) : Bool :=
  match cfg.enabled with
  | .callable b => !envSet && b
  | .boolean b => b && (resolveValue st freshId).isSome

/-- Whether _system_info succeeds on this platform. -/
def sysOk : Platform → Bool
  | .other _ => false
  | _ => true

/-- A store state in which no lock times out and no read hits an OS error
other than a missing file. -/
def cleanStore (st : StoreState) : Bool :=
  !st.primaryLockTimeout && !st.legacyLockTimeout &&
    !(st.primary == .oserror) && !(st.legacy == .oserror)

end IterativeTelemetry

namespace IterativeTelemetry

/-- Helper: the Windows os_version string of _system_info is never empty
(it always contains the two dots and the dash). -/
theorem winVersionString_ne_empty (b ma mi : Nat) (sp : String) :
    winVersionString b ma mi sp ≠ "" := by
  unfold winVersionString
  intro h
  have hlen := congrArg String.length h
  have h1 : ("." : String).length = 1 := rfl
  have h2 : ("-" : String).length = 1 := rfl
  simp [String.length_append, h1, h2] at hlen

/-- Helper: any runtime-info record _runtime_info produces has the empty
string as its group_id. -/
theorem runtime_group_id (cfg : LoggerCfg) (plat : Platform) (st : StoreState)
    (freshId : String) (cached : Option (Option String)) (ri : RuntimeInfo) (st2 : StoreState)
    (h : runtime_info cfg plat st freshId cached = .ok (ri, st2)) : ri.group_id = "" := by
  unfold runtime_info at h
  split at h
  · exact absurd h (by simp)
  · split at h
    · injection h with h'
      injection h' with ha hb
      rw [← ha]
      rfl
    · split at h
      · exact absurd h (by simp)
      · injection h with h'
        injection h' with ha hb
        rw [← ha]
        rfl

/-- C1 counterexample: the claimed gate (env unset AND enabled AND
resolution non-None) does not govern dispatch. First input: a callable
enabled predicate returning true with the primary file holding the
opt-out sentinel (mixed case) — the code dispatches although resolution
yields None. Second input: a boolean-true enabled config with the env
override variable set — the code dispatches although the override is
set. -/
theorem claimed_gate_refuted :
    (dispatchedB (send ⟨"t", "1", .callable true, "u", "k"⟩ false
        ⟨.userId "Do-Not-Track", .absent, false, false, false⟩ "fresh" (.linux "22.04")
        ⟨"cli", "run", none, []⟩ false true) = true ∧
      claimedGateB ⟨"t", "1", .callable true, "u", "k"⟩ false
        ⟨.userId "Do-Not-Track", .absent, false, false, false⟩ "fresh" = false) ∧
    (dispatchedB (send ⟨"t", "1", .boolean true, "u", "k"⟩ true
        ⟨.userId "1234", .absent, false, false, false⟩ "fresh" (.linux "22.04")
        ⟨"cli", "run", none, []⟩ false true) = true ∧
      claimedGateB ⟨"t", "1", .boolean true, "u", "k"⟩ true
        ⟨.userId "1234", .absent, false, false, false⟩ "fresh" = false) :=
  ⟨⟨by decide, by decide⟩, ⟨by decide, by decide⟩⟩

/-- C1 (amended): provided the delivery flags are not both set, the
platform is supported and identity resolution does not raise, send
dispatches a payload if and only if the gate the code actually computes
passes: for a callable enabled config, env override unset and the
predicate true (resolution not consulted); for a boolean enabled config,
the flag true and resolution non-None (env override not consulted). -/
theorem send_dispatches_iff_actual_gate (cfg : LoggerCfg) (envSet : Bool) (st : StoreState)
    (freshId : String) (plat : Platform) (base : BasePayload) (ut ud : Bool)
    (hflags : (ut && ud) = false) (hsys : sysOk plat = true)
    (hres : resolveOk st freshId = true) :
    dispatchedB (send cfg envSet st freshId plat base ut ud) =
      actualGateB cfg envSet st freshId := by
  rcases hfr : find_or_create_user_id st freshId with ⟨res, st1⟩
  unfold resolveOk at hres
  rw [hfr] at hres
  cases res with
  | error e => simp at hres
  | ok v =>
    obtain ⟨tn, tv, en, u, k⟩ := cfg
    cases en with
    | callable b =>
      cases envSet <;> cases b <;>
        cases plat <;> simp only [sysOk] at hsys <;> try simp at hsys
      all_goals
        simp [send, is_enabled, runtime_info, system_info, hfr, hflags,
          dispatchedB, actualGateB]
    | boolean b =>
      cases b <;> cases v <;>
        cases plat <;> simp only [sysOk] at hsys <;> try simp at hsys
      all_goals
        simp [send, is_enabled, runtime_info, system_info, hfr, hflags,
          dispatchedB, actualGateB, resolveValue]

/-- C1 witness: the amended gate equivalence at a concrete input. -/
theorem send_dispatches_iff_actual_gate_witness :
    dispatchedB (send ⟨"t", "1", .boolean true, "u", "k"⟩ false
        ⟨.userId "1234", .absent, false, false, false⟩ "f" (.linux "22")
        ⟨"cli", "run", none, []⟩ false true) =
      actualGateB ⟨"t", "1", .boolean true, "u", "k"⟩ false
        ⟨.userId "1234", .absent, false, false, false⟩ "f" :=
  send_dispatches_iff_actual_gate ⟨"t", "1", .boolean true, "u", "k"⟩ false
    ⟨.userId "1234", .absent, false, false, false⟩ "f" (.linux "22")
    ⟨"cli", "run", none, []⟩ false true (by decide) (by decide) (by decide)

/-- C2: identity resolution does not always swallow failures. On a
primary-lock acquisition timeout the except block only logs, and the
final return line reads the never-assigned local user_id, raising
UnboundLocalError; an OS error other than a missing file (e.g.
PermissionError) while reading the primary file also propagates. The
last two conjuncts show the cases the code does swallow: a legacy-lock
timeout yields None, and malformed JSON or a missing user_id key falls
through to generation. -/
theorem resolution_raises_on_timeout_and_oserror :
    (find_or_create_user_id ⟨.absent, .absent, false, true, false⟩ "f").1
      = .error .unboundLocal ∧
    (find_or_create_user_id ⟨.oserror, .absent, false, false, false⟩ "f").1
      = .error .osError ∧
    (find_or_create_user_id ⟨.malformed, .userId "1234", true, false, true⟩ "f").1
      = .ok none ∧
    (find_or_create_user_id ⟨.malformed, .malformed, true, false, false⟩ "f").1
      = .ok (some "f") :=
  ⟨rfl, rfl, rfl, by decide⟩

/-- C3 counterexample: on a fresh store the resolved value "abc" is not
the sentinel and was not present at the legacy path, yet after resolution
the legacy file is still absent — no write to the legacy path happens. -/
theorem legacy_writeback_refuted_on_fresh_store :
    find_or_create_user_id ⟨.absent, .absent, false, false, false⟩ "abc"
      = (.ok (some "abc"), ⟨.userId "abc", .absent, false, false, false⟩) ∧
    FileContent.absent ≠ FileContent.userId "abc" :=
  ⟨by decide, by decide⟩

/-- C3 (amended): identity resolution never writes the legacy path — for
every store state the legacy file content is unchanged by resolution; the
resolved value is persisted to the primary path only. -/
theorem resolution_never_writes_legacy (st : StoreState) (freshId : String) :
    (find_or_create_user_id st freshId).2.legacy = st.legacy := by
  unfold find_or_create_user_id
  repeat' split
  all_goals rfl

/-- C4: with the primary file absent and the legacy file holding user_id
"1234", resolution returns "1234" and writes the primary file with that
value; afterwards, with the legacy file deleted, resolution still returns
"1234" from the primary file, whatever uuid generation would produce. -/
theorem legacy_migration_then_primary_authoritative (fresh : String) :
    find_or_create_user_id ⟨.absent, .userId "1234", true, false, false⟩ fresh
      = (.ok (some "1234"), ⟨.userId "1234", .userId "1234", true, false, false⟩) ∧
    find_or_create_user_id ⟨.userId "1234", .absent, false, false, false⟩ fresh
      = (.ok (some "1234"), ⟨.userId "1234", .absent, false, false, false⟩) :=
  ⟨rfl, rfl⟩

/-- C5 counterexample: with a boolean-false enabled config, send with
use_thread and use_daemon both true returns normally (suppressed, no
exception) instead of raising the configuration error: the gate check
returns before the flag validation. -/
theorem config_error_refuted_when_disabled :
    send ⟨"t", "1", .boolean false, "u", "k"⟩ false
      ⟨.absent, .absent, false, false, false⟩ "f" (.linux "1")
      ⟨"cli", "run", none, []⟩ true true
      = .ok (none, ⟨.absent, .absent, false, false, false⟩) := by decide

/-- C5 (amended): when the gate the code computes passes, the platform is
supported and identity resolution does not raise, send with use_thread
and use_daemon both true raises ValueError synchronously. -/
theorem config_error_raised_when_gate_passes (cfg : LoggerCfg) (envSet : Bool)
    (st : StoreState) (freshId : String) (plat : Platform) (base : BasePayload)
    (hgate : actualGateB cfg envSet st freshId = true)
    (hsys : sysOk plat = true) (hres : resolveOk st freshId = true) :
    send cfg envSet st freshId plat base true true = .error .valueError := by
  rcases hfr : find_or_create_user_id st freshId with ⟨res, st1⟩
  unfold resolveOk at hres
  rw [hfr] at hres
  cases res with
  | error e => simp at hres
  | ok v =>
    obtain ⟨tn, tv, en, u, k⟩ := cfg
    cases en with
    | callable b =>
      unfold actualGateB at hgate
      simp only [Bool.and_eq_true] at hgate
      obtain ⟨henv, hb⟩ := hgate
      cases plat <;> simp only [sysOk] at hsys <;> try simp at hsys
      all_goals
        simp [send, is_enabled, runtime_info, system_info, hfr, henv, hb]
    | boolean b =>
      unfold actualGateB at hgate
      simp only [Bool.and_eq_true] at hgate
      obtain ⟨hb, hsome⟩ := hgate
      subst hb
      simp only [resolveValue, hfr] at hsome
      cases plat <;> simp only [sysOk] at hsys <;> try simp at hsys
      all_goals
        cases v with
        | none => simp at hsome
        | some uid => simp [send, is_enabled, runtime_info, system_info, hfr]

/-- C5 witness: the amended configuration-error contract at a concrete
enabled input. -/
theorem config_error_raised_when_gate_passes_witness :
    send ⟨"t", "1", .boolean true, "u", "k"⟩ false
      ⟨.userId "1234", .absent, false, false, false⟩ "f" (.linux "22")
      ⟨"cli", "run", none, []⟩ true true = .error .valueError :=
  config_error_raised_when_gate_passes ⟨"t", "1", .boolean true, "u", "k"⟩ false
    ⟨.userId "1234", .absent, false, false, false⟩ "f" (.linux "22")
    ⟨"cli", "run", none, []⟩ (by decide) (by decide) (by decide)

/-- C6: on every store state with no lock timeout and no OS-error file,
running identity resolution twice (cache cleared, i.e. two plain calls,
the second on the state the first left behind) yields the same value both
times. -/
theorem resolution_idempotent_on_clean_store (st : StoreState) (fresh : String)
    (h : cleanStore st = true) :
    ∃ v, (find_or_create_user_id st fresh).1 = .ok v ∧
      (find_or_create_user_id (find_or_create_user_id st fresh).2 fresh).1 = .ok v := by
  obtain ⟨p, l, d, pt, lt⟩ := st
  simp only [cleanStore, Bool.and_eq_true, Bool.not_eq_true', beq_eq_false_iff_ne,
    ne_eq] at h
  obtain ⟨⟨⟨hpt, hlt⟩, hp⟩, hl⟩ := h
  subst hpt
  subst hlt
  cases p <;> cases l <;> cases d <;>
    simp [find_or_create_user_id, read_user_id, read_user_id_locked] <;>
    first
      | exact absurd rfl hp
      | exact absurd rfl hl

/-- C6 witness: resolution is idempotent on a concrete fresh store. -/
theorem resolution_idempotent_on_clean_store_witness :
    ∃ v, (find_or_create_user_id ⟨.absent, .absent, false, false, false⟩ "abc").1 = .ok v ∧
      (find_or_create_user_id
        (find_or_create_user_id ⟨.absent, .absent, false, false, false⟩ "abc").2 "abc").1
        = .ok v :=
  resolution_idempotent_on_clean_store ⟨.absent, .absent, false, false, false⟩ "abc" (by decide)

/-- C7: for the three supported OS families _system_info returns a record
with both fields non-empty — os_name is "windows", "mac" or "linux", and
on Windows os_version has the build.major.minor-servicepack form — while
any other platform raises NotImplementedError; the mac and linux
os_version values are the injected platform release strings, assumed
non-empty. -/
theorem system_info_supported_families_complete (b ma mi : Nat) (sp rel dv osname : String)
    (hrel : rel ≠ "") (hdv : dv ≠ "") :
    (system_info (.windows b ma mi sp) = .ok ⟨"windows", winVersionString b ma mi sp⟩ ∧
      ("windows" : String) ≠ "" ∧ winVersionString b ma mi sp ≠ "") ∧
    (system_info (.mac rel) = .ok ⟨"mac", rel⟩ ∧ ("mac" : String) ≠ "" ∧ rel ≠ "") ∧
    (system_info (.linux dv) = .ok ⟨"linux", dv⟩ ∧ ("linux" : String) ≠ "" ∧ dv ≠ "") ∧
    system_info (.other osname) = .error .notImplemented :=
  ⟨⟨rfl, by decide, winVersionString_ne_empty b ma mi sp⟩,
    ⟨rfl, by decide, hrel⟩, ⟨rfl, by decide, hdv⟩, rfl⟩

/-- C7 witness: the host-descriptor contract at concrete version data. -/
theorem system_info_supported_families_complete_witness :
    ("12.4" : String) ≠ "" ∧ ("22.04" : String) ≠ "" ∧
    ((system_info (.windows 22000 10 0 "sp") = .ok ⟨"windows", winVersionString 22000 10 0 "sp"⟩ ∧
      ("windows" : String) ≠ "" ∧ winVersionString 22000 10 0 "sp" ≠ "") ∧
    (system_info (.mac "12.4") = .ok ⟨"mac", "12.4"⟩ ∧ ("mac" : String) ≠ "" ∧ ("12.4" : String) ≠ "") ∧
    (system_info (.linux "22.04") = .ok ⟨"linux", "22.04"⟩ ∧ ("linux" : String) ≠ "" ∧ ("22.04" : String) ≠ "") ∧
    system_info (.other "java") = .error .notImplemented) :=
  ⟨by decide, by decide,
    system_info_supported_families_complete 22000 10 0 "sp" "12.4" "22.04" "java"
      (by decide) (by decide)⟩

/-- C8 counterexample: a dispatched payload whose user_id is "1234"
carries group_id "" — the literal empty-string TODO placeholder, not a
duplicate of user_id. -/
theorem group_id_duplicate_refuted :
    send ⟨"t", "1", .boolean true, "u", "k"⟩ false
      ⟨.userId "1234", .absent, false, false, false⟩ "f" (.linux "22")
      ⟨"cli", "run", none, []⟩ false true
      = .ok (some (.daemon, ⟨"cli", "run", none, [], "t", "1", "linux", "22", some "1234", ""⟩),
          ⟨.userId "1234", .absent, false, false, false⟩) ∧
    ("" : String) ≠ "1234" :=
  ⟨by decide, by decide⟩

/-- C8 (amended): every payload send hands to a delivery strategy carries
group_id equal to the empty string, the TODO placeholder of
_runtime_info. -/
theorem dispatched_group_id_is_empty_placeholder (cfg : LoggerCfg) (envSet : Bool)
    (st : StoreState) (freshId : String) (plat : Platform) (base : BasePayload)
    (ut ud : Bool) (s : Strategy) (p : FullPayload) (st' : StoreState)
    (hd : send cfg envSet st freshId plat base ut ud = .ok (some (s, p), st')) :
    p.group_id = "" := by
  unfold send at hd
  split at hd
  · exact absurd hd (by simp)
  · split at hd
    · split at hd
      · exact absurd hd (by simp)
      · rename_i x2 ri st2 hruntime
        split at hd
        · exact absurd hd (by simp)
        · simp only [Except.ok.injEq, Prod.mk.injEq, Option.some.injEq] at hd
          obtain ⟨⟨hs, hp⟩, hst⟩ := hd
          subst hp
          exact runtime_group_id _ _ _ _ _ _ _ hruntime
    · exact absurd hd (by simp)

/-- C8 witness: the empty group_id placeholder on a concrete dispatched
payload. -/
theorem dispatched_group_id_is_empty_placeholder_witness :
    (⟨"cli", "run", none, [], "t", "1", "linux", "22", some "1234", ""⟩ : FullPayload).group_id
      = "" :=
  dispatched_group_id_is_empty_placeholder ⟨"t", "1", .boolean true, "u", "k"⟩ false
    ⟨.userId "1234", .absent, false, false, false⟩ "f" (.linux "22")
    ⟨"cli", "run", none, []⟩ false true .daemon
    ⟨"cli", "run", none, [], "t", "1", "linux", "22", some "1234", ""⟩
    ⟨.userId "1234", .absent, false, false, false⟩ (by decide)

/-- C9: for every transport outcome (response of any status, connection
failure or timeout) the synchronous strategy issues exactly one POST with
the payload as JSON body, the auth token as a query parameter and
timeout 2, and returns without raising. -/
theorem sync_send_single_post_never_raises (cfg : LoggerCfg) (body : FullPayload)
    (outcome : TransportOutcome) :
    send_sync cfg body outcome = ([⟨cfg.url, cfg.token, body, 2⟩], .ok ()) := by
  cases outcome <;> rfl

/-- C10: send_cli_call is definitionally send_event with interface "cli"
and the default delivery flags use_thread false, use_daemon true. -/
theorem send_cli_call_refines_send_event (cfg : LoggerCfg) (envSet : Bool) (st : StoreState)
    (freshId : String) (plat : Platform) (cmd : String) (err : Option String)
    (kwargs : List (String × String)) :
    send_cli_call cfg envSet st freshId plat cmd err kwargs
      = send_event cfg envSet st freshId plat "cli" cmd err false true kwargs := rfl

end IterativeTelemetry
